import Mathlib

/-!
Shallow embedding of scriptflow-cli (src/bin/index.js).

The tool keeps a settings record (config.json), a flow registry
(flows.json under the flow directory) and one generated script file per
flow.  File-system paths are modelled as lists of path components; the
set of existing paths is a list of such paths.  Interactive prompting is
an external collaborator: prompt answers enter the model as function
arguments.  Fallible file-system and subprocess operations enter the
model as explicit outcome arguments, and everything a handler prints is
returned as a list of log lines.
-/

namespace Scriptflow

/-- A file-system path, as its list of components. -/
abbrev FsPath := List String

/-- Render a component path the way string interpolation of a path value
renders it in the source (components joined by the separator). -/
def renderPath (p : FsPath) : String := String.intercalate "/" p

/-- pathUnder root p: p is root itself or lies below root. -/
def pathUnder (root p : FsPath) : Bool := decide (p.take root.length = root)

/-- Recursive move of the subtree at src to dst, as performed by the
mv / Move-Item / move command in reinitialize. -/
def mvTree (src dst : FsPath) (fs : List FsPath) : List FsPath :=
  fs.map (fun p => if pathUnder src p then dst ++ p.drop src.length else p)

/-- Recursive removal of the subtree at root, as performed by
fs.rm recursive and by rm -rf / Remove-Item / rmdir. -/
def rmTree (root : FsPath) (fs : List FsPath) : List FsPath :=
  fs.filter (fun p => !pathUnder root p)

/-- The persisted settings record (config.json): fields flowDir,
flowCommandDir, terminalProfile, defaultFlowPath, initialized. -/
structure Config where
  flowDir : FsPath
  flowCommandDir : FsPath
  terminalProfile : String
  defaultFlowPath : String
  initialized : Bool
  deriving DecidableEq

/-- One flow record as stored in flows.json: in the source,
name, path (working directory) and script (absolute script file path). -/
structure Flow where
  name : String
  path : FsPath
  script : FsPath
  deriving DecidableEq

/-- What reading and parsing the registry file (flows.json) can yield:
the file is missing, it parses to a list of records, or JSON.parse
throws on malformed content (carrying the thrown message). -/
inductive RegistryRead where
  | fileMissing
  | parsed (flows : List Flow)
  | malformed (msg : String)
  deriving DecidableEq

/-- Whole-program state threaded through the handlers: the settings
record, the registry file, the set of existing file-system paths, and
the current working directory of the process. -/
structure World where
  config : Config
  registry : RegistryRead
  fs : List FsPath
  cwd : FsPath
  deriving DecidableEq

/-- Outcome of a fallible file-system operation (mkdir+writeFile of the
script, fs.rm, writeFile of the registry), carrying the error message
when it throws. -/
inductive FsOutcome where
  | ok
  | err (msg : String)
  deriving DecidableEq

/-- Outcome of the promisified child_process.exec: resolution with
captured stdout and stderr, or rejection (non-zero exit or spawn
error), carrying error.message. -/
inductive ExecOutcome where
  | success (stdout stderr : String)
  | failure (msg : String)
  deriving DecidableEq

/-- The message printed by every gated verb when initialized is false. -/
def notInitializedMsg : String :=
  "Flow manager is not initialized. Please run \"flow init\" to initialize it."

/-- loadFlows: if fs.access on flows.json fails, return the empty list;
otherwise read and JSON.parse; the surrounding try/catch turns a parse
error into a console.error line and the empty list.  Returns the flow
list together with the printed lines. -/
def loadFlows : RegistryRead → List Flow × List String
  | .fileMissing => ([], [])
  | .parsed flows => (flows, [])
  | .malformed msg => ([], ["Error loading flows: " ++ msg])

/-- saveFlows: writeFile of flows.json inside try/catch; on success the
registry file now holds the given list, on error a console.error line is
printed and the function returns normally with the file unchanged. -/
def saveFlows (w : World) (flows : List Flow) (write : FsOutcome) :
    World × List String :=
  match write with
  | .ok => ({ w with registry := .parsed flows }, [])
  | .err msg => (w, ["Error saving flows: " ++ msg])

/-- replaceCommas sep s: the commands.replaceAll with a comma pattern
from createFlow; with a one-character pattern this is exactly
per-character replacement. -/
def replaceCommas (sep : String) (s : String) : String :=
  String.join (s.data.map (fun c => if c = ',' then sep else String.singleton c))

/-- The script-generation switch of createFlow (switch on
config.terminalProfile): returns script content and file extension, or
none for the default branch. -/
def generateScript (terminalProfile : String) (commands : String) :
    Option (String × String) :=
  match terminalProfile with
  | "bash" => some ("#!/bin/bash\n\n" ++ replaceCommas "\n\n" commands, ".sh")
  | "zsh" => some ("#!/bin/zsh\n\n" ++ replaceCommas "\n\n" commands, ".sh")
  | "powershell" =>
      some ("# PowerShell script content here\n\n" ++ replaceCommas "\n" commands, ".ps1")
  | "cmd" => some ("@echo off\n\n" ++ replaceCommas "\n" commands, ".bat")
  | _ => none

/-- The answers the create prompts produce: flow name, the path the flow
will be called from, and the comma-separated command string. -/
structure CreateAnswers where
  flowName : String
  flowPath : FsPath
  commands : String
  deriving DecidableEq

/-- The answers the initialize prompts produce: terminal profile and
flow storage location. -/
structure InitAnswers where
  terminalProfile : String
  flowLocation : FsPath
  deriving DecidableEq

/-- initCmd models the source function handling the init verb: if
already initialized print a message and stop; otherwise set
terminalProfile, flowDir, flowCommandDir = flowDir plus the commands
component, initialized = true, and save the config. -/
def initCmd (w : World) (ans : InitAnswers) : World × List String :=
  if w.config.initialized then (w, ["Flow manager is already initialized."])
  else
    ({ w with config :=
        { w.config with
            terminalProfile := ans.terminalProfile,
            flowDir := ans.flowLocation,
            flowCommandDir := ans.flowLocation ++ ["commands"],
            initialized := true } },
      ["Flow manager initialized successfully!"])

/-- createFlow after the prompts: gate on initialized, run the
script-generation switch (default branch prints and returns), build
commandFolder = flowCommandDir/flowName and script file
commandFolder/script plus extension, then inside try/catch: mkdir and
write the script (outcome mkWrite), load the registry, push the new
record, saveFlows (outcome save), print the success line.  A mkdir or
script-write error is caught and printed; saveFlows catches its own
error, so the success line still prints after a failed registry write. -/
def createFlow (w : World) (a : CreateAnswers) (mkWrite save : FsOutcome) :
    World × List String :=
  if !w.config.initialized then (w, [notInitializedMsg])
  else
    match generateScript w.config.terminalProfile a.commands with
    | none => (w, ["Invalid terminal profile selected."])
    | some (_scriptContent, ext) =>
        let commandFolder := w.config.flowCommandDir ++ [a.flowName]
        let scriptFile := commandFolder ++ ["script" ++ ext]
        match mkWrite with
        | .err msg => (w, ["Error creating flow: " ++ msg])
        | .ok =>
            let w1 := { w with fs := w.fs ++ [commandFolder, scriptFile] }
            let flows := (loadFlows w.registry).1
            let newFlows :=
              flows ++ [{ name := a.flowName, path := a.flowPath, script := scriptFile }]
            let saved := saveFlows w1 newFlows save
            (saved.1,
              (loadFlows w.registry).2 ++ saved.2 ++
                ["Flow created successfully! File location: " ++ renderPath scriptFile])

/-- listFlows: gate on initialized, load the registry, print either the
no-flows line or the header followed by the flow names. -/
def listFlows (w : World) : World × List String :=
  if !w.config.initialized then (w, [notInitializedMsg])
  else
    let flows := (loadFlows w.registry).1
    (w, (loadFlows w.registry).2 ++
      (if flows.length = 0 then ["No flows found."]
       else "List of flows:" :: flows.map (fun f => f.name)))

/-- Result of a handler that changes directory and runs a subprocess:
the final world, the printed lines, and the command string handed to
the shell (none when no subprocess was started). -/
structure CmdResult where
  world : World
  log : List String
  executed : Option String
  deriving DecidableEq

/-- runFlow: gate on initialized; find the flow by name; capture
currentDir = process.cwd(), chdir into flow.path, print the running
line, try executeCommand of the sh command (printing stdout, and stderr
when non-empty, or the catch line), and in the finally block chdir back
to currentDir and print Finished. -/
def runFlow (w : World) (flowName : String) (exec : ExecOutcome) : CmdResult :=
  if !w.config.initialized then ⟨w, [notInitializedMsg], none⟩
  else
    match (loadFlows w.registry).1.find? (fun f => f.name == flowName) with
    | none => ⟨w, (loadFlows w.registry).2 ++ ["Flow not found"], none⟩
    | some flow =>
        let currentDir := w.cwd
        let wIn := { w with cwd := flow.path }
        let command := "sh " ++ renderPath flow.script
        let tryLog :=
          match exec with
          | .success out err => [out] ++ (if err = "" then [] else [err])
          | .failure msg => ["Error running flow: " ++ msg]
        let wOut := { wIn with cwd := currentDir }
        ⟨wOut,
          (loadFlows w.registry).2 ++ ["Running flow: " ++ flow.name] ++ tryLog ++
            ["Finished."],
          some command⟩

/-- openFlowForEditing: same shape as runFlow but the subprocess is the
code command pointed at the script file, with its own messages. -/
def openFlowForEditing (w : World) (flowName : String) (exec : ExecOutcome) :
    CmdResult :=
  if !w.config.initialized then ⟨w, [notInitializedMsg], none⟩
  else
    match (loadFlows w.registry).1.find? (fun f => f.name == flowName) with
    | none => ⟨w, (loadFlows w.registry).2 ++ ["Flow not found"], none⟩
    | some flow =>
        let currentDir := w.cwd
        let wIn := { w with cwd := flow.path }
        let command := "code " ++ renderPath flow.script
        let tryLog :=
          match exec with
          | .success out err => [out] ++ (if err = "" then [] else [err])
          | .failure msg => ["Error opening flow for editing: " ++ msg]
        let wOut := { wIn with cwd := currentDir }
        ⟨wOut,
          (loadFlows w.registry).2 ++ ["Opening flow for editing: " ++ flow.name] ++
            tryLog ++ ["Finished."],
          some command⟩

/-- findIndexAndFlow p flows: the findIndex of deleteFlow together with
the element access flows[flowIndex] that follows it. -/
def findIndexAndFlow (p : Flow → Bool) : List Flow → Option (Nat × Flow)
  | [] => none
  | f :: fs =>
      if p f then some (0, f)
      else (findIndexAndFlow p fs).map (fun x => (x.1 + 1, x.2))

/-- deleteFlow: gate on initialized; findIndex by name (miss prints Flow
not found); inside try/catch fs.rm the script path recursively (outcome
rm; on error the catch prints and nothing else happens), then splice the
record out, saveFlows (outcome save, which swallows its own error) and
print the success line. -/
def deleteFlow (w : World) (flowName : String) (rm save : FsOutcome) :
    World × List String :=
  if !w.config.initialized then (w, [notInitializedMsg])
  else
    let flows := (loadFlows w.registry).1
    match findIndexAndFlow (fun f => f.name == flowName) flows with
    | none => (w, (loadFlows w.registry).2 ++ ["Flow not found"])
    | some (i, flow) =>
        match rm with
        | .err msg => (w, (loadFlows w.registry).2 ++ ["Error deleting flow: " ++ msg])
        | .ok =>
            let w1 := { w with fs := rmTree flow.script w.fs }
            let saved := saveFlows w1 (flows.eraseIdx i) save
            (saved.1,
              (loadFlows w.registry).2 ++ saved.2 ++ ["Flow deleted successfully!"])

/-- The profiles the reinitialize switches handle; any other value hits
the default branch. -/
def isKnownProfile (p : String) : Bool :=
  p == "bash" || p == "zsh" || p == "powershell" || p == "cmd"

/-- The choice offered by the reinit handler when flows exist, with the
new location answer attached to the Move choice. -/
inductive ReinitChoice where
  | moveTo (dst : FsPath)
  | deleteExisting
  | cancel
  deriving DecidableEq

/-- reinitCmd models the source function handling the reinit verb.  It
has no initialized gate.  Load the registry; when the flow list is
non-empty, act on the choice.  Move: for a known profile run the
recursive move command (its echoed completion text is captured by
execSync, not printed), for the default branch print the invalid-profile
line and move nothing; in both cases then set flowDir, flowCommandDir
and initialized = true and save the config.  Delete: for a known profile
fire the recursive removal of the flow directory (which contains
flows.json, so the registry file is gone afterwards), set initialized =
false, save, and run the plain init flow; the default branch prints and
returns.  Cancel: return.  With an empty flow list nothing at all
happens. -/
def reinitCmd (w : World) (choice : ReinitChoice) (ans : InitAnswers) :
    World × List String :=
  let flows := (loadFlows w.registry).1
  let loadLog := (loadFlows w.registry).2
  if flows.length > 0 then
    match choice with
    | .moveTo dst =>
        let cfg :=
          { w.config with
              flowDir := dst,
              flowCommandDir := dst ++ ["commands"],
              initialized := true }
        if isKnownProfile w.config.terminalProfile then
          ({ w with config := cfg, fs := mvTree w.config.flowDir dst w.fs }, loadLog)
        else
          ({ w with config := cfg }, loadLog ++ ["Invalid terminal profile selected."])
    | .deleteExisting =>
        if isKnownProfile w.config.terminalProfile then
          let w1 :=
            { w with
                fs := rmTree w.config.flowDir w.fs,
                registry := .fileMissing,
                config := { w.config with initialized := false } }
          let inited := initCmd w1 ans
          (inited.1, loadLog ++ inited.2)
        else (w, loadLog ++ ["Invalid terminal profile selected."])
    | .cancel => (w, loadLog)
  else (w, loadLog)

/-- One character of the flow-name character class a-zA-Z0-9-_ . -/
def isFlowNameChar (c : Char) : Bool :=
  ('a' ≤ c && c ≤ 'z') || ('A' ≤ c && c ≤ 'Z') || ('0' ≤ c && c ≤ '9') ||
    c == '-' || c == '_'

/-- The anchored one-or-more regex test on the flow name. -/
def isValidFlowName (s : String) : Bool :=
  s.length > 0 && s.data.all isFlowNameChar

/-- Marker for a JavaScript Promise that has not been awaited. -/
inductive Pending (α : Type) where
  | promise
  deriving DecidableEq

/-- What a synchronous JavaScript expression yields: a value, or a
thrown error carrying its message. -/
inductive JsResult (α : Type) where
  | ok (a : α)
  | thrown (msg : String)
  deriving DecidableEq

/-- The validate callback of createFlow binds flows to loadFlows()
without await, so flows is a pending Promise, not a list. -/
def loadFlowsNoAwait : Pending (List Flow) := Pending.promise

/-- flows.find applied to the un-awaited Promise: a Promise has no find
method, so the call throws a TypeError instead of producing a flow. -/
def promiseFind (_p : Pending (List Flow)) (_name : String) :
    JsResult (Option Flow) :=
  .thrown "flows.find is not a function"

/-- What the inquirer validate callback returns: true, or a rejection
message. -/
inductive ValidateResult where
  | valid
  | invalid (msg : String)
  deriving DecidableEq

/-- The flow-name validate callback of createFlow: inside try/catch,
reject on a regex mismatch; otherwise look the name up in the result of
the un-awaited loadFlows() call (a duplicate would yield the
already-exists message, a miss would yield true); the catch turns any
thrown error into the generic rejection message. -/
def validateFlowName (value : String) : ValidateResult :=
  if !isValidFlowName value then .invalid "Please enter a valid flow name"
  else
    match promiseFind loadFlowsNoAwait value with
    | .ok (some _) => .invalid "Flow name already exists"
    | .ok none => .valid
    | .thrown _ => .invalid "Please enter a valid flow name"

/-- A concrete flow record used to evaluate the handlers. -/
def sampleFlow : Flow :=
  { name := "f", path := ["home", "proj"],
    script := ["home", "flow", "commands", "f", "script.sh"] }

/-- A concrete initialized state holding one flow, with the script file
and its per-flow directory present on disk. -/
def sampleWorld : World :=
  { config :=
      { flowDir := ["home", "flow"],
        flowCommandDir := ["home", "flow", "commands"],
        terminalProfile := "bash",
        defaultFlowPath := ".",
        initialized := true },
    registry := .parsed [sampleFlow],
    fs := [["home"], ["home", "proj"], ["home", "flow"],
           ["home", "flow", "commands"], ["home", "flow", "commands", "f"],
           ["home", "flow", "commands", "f", "script.sh"]],
    cwd := ["home", "proj"] }

/-- sampleWorld with the initialized flag cleared (the state reached,
for example, after the settings-reset verb while the old flow directory
and registry file are still on disk). -/
def uninitWorld : World :=
  { sampleWorld with config := { sampleWorld.config with initialized := false } }

/-- An uninitialized state whose registry file does not exist. -/
def emptyRegWorld : World :=
  { uninitWorld with registry := .fileMissing }

theorem take_length_append (l₁ l₂ : List String) :
    (l₁ ++ l₂).take l₁.length = l₁ := by
  induction l₁ with
  | nil => simp
  | cons a t ih => simp [ih]

theorem pathUnder_self (p : FsPath) : pathUnder p p = true := by
  simp [pathUnder]

theorem pathUnder_append_self (a b : FsPath) : pathUnder a (a ++ b) = true := by
  simp [pathUnder, take_length_append]

theorem not_mem_rmTree_self (p : FsPath) (fs : List FsPath) :
    p ∉ rmTree p fs := by
  simp [rmTree, List.mem_filter, pathUnder_self]

theorem mem_rmTree_of_not_under (root d : FsPath) (fs : List FsPath)
    (hd : d ∈ fs) (h : pathUnder root d = false) : d ∈ rmTree root fs := by
  simp [rmTree, List.mem_filter, hd, h]

theorem not_mem_mvTree {src dst q : FsPath} (fs : List FsPath)
    (h1 : pathUnder src q = true) (h2 : pathUnder dst q = false) :
    q ∉ mvTree src dst fs := by
  simp only [mvTree, List.mem_map, not_exists]
  rintro p ⟨hp, hpe⟩
  by_cases hc : pathUnder src p = true
  · rw [if_pos hc] at hpe
    rw [← hpe, pathUnder_append_self] at h2
    exact absurd h2 (by simp)
  · rw [if_neg hc] at hpe
    rw [hpe] at hc
    exact hc h1

/-- C1: for every flow name that resolves to a flow, runFlow and
openFlowForEditing capture the working directory active before the call
and restore it on every exit path of the subprocess (success, non-zero
exit, or invocation error all being values of the exec outcome), so the
final working directory equals the one active before the call. -/
theorem c1_run_edit_restore_cwd (w : World) (n : String) (ex ex2 : ExecOutcome)
    (f : Flow)
    (hinit : w.config.initialized = true)
    (hfind : (loadFlows w.registry).1.find? (fun fl => fl.name == n) = some f) :
    (runFlow w n ex).world.cwd = w.cwd ∧
    (openFlowForEditing w n ex2).world.cwd = w.cwd := by
  constructor <;> simp [runFlow, openFlowForEditing, hinit, hfind]

/-- Witness for C1 at a concrete state, exercising a failing run and a
successful edit. -/
theorem c1_witness :
    sampleWorld.config.initialized = true ∧
    (loadFlows sampleWorld.registry).1.find? (fun fl => fl.name == "f") =
      some sampleFlow ∧
    ((runFlow sampleWorld "f" (.failure "spawn sh ENOENT")).world.cwd =
        sampleWorld.cwd ∧
      (openFlowForEditing sampleWorld "f" (.success "" "")).world.cwd =
        sampleWorld.cwd) :=
  ⟨by decide, by decide,
    c1_run_edit_restore_cwd sampleWorld "f" (.failure "spawn sh ENOENT")
      (.success "" "") sampleFlow (by decide) (by decide)⟩

/-- C2 counterexample: the reinit verb has no initialized gate.  In a
state with initialized = false and one existing flow, the Move choice
mutates the settings (flowDir changes and initialized is even set to
true) and the not-initialized message is never printed, refuting the
claim for the reinit verb. -/
theorem c2_counterexample :
    uninitWorld.config.initialized = false ∧
    (reinitCmd uninitWorld (.moveTo ["home", "new"])
        ⟨"bash", ["home", "new"]⟩).1.config.initialized = true ∧
    (reinitCmd uninitWorld (.moveTo ["home", "new"])
        ⟨"bash", ["home", "new"]⟩).1.config.flowDir = ["home", "new"] ∧
    notInitializedMsg ∉
      (reinitCmd uninitWorld (.moveTo ["home", "new"])
        ⟨"bash", ["home", "new"]⟩).2 := by
  decide

/-- C2 amended: for the create, list, run, delete and edit verbs, a
state with initialized = false yields exactly the not-initialized
message and a completely unchanged state; the reinit verb performs no
such check. -/
theorem c2_gate_amended (w : World) (a : CreateAnswers) (mkW sv rm : FsOutcome)
    (n m : String) (ex ex2 : ExecOutcome)
    (h : w.config.initialized = false) :
    createFlow w a mkW sv = (w, [notInitializedMsg]) ∧
    listFlows w = (w, [notInitializedMsg]) ∧
    runFlow w n ex = ⟨w, [notInitializedMsg], none⟩ ∧
    deleteFlow w m rm sv = (w, [notInitializedMsg]) ∧
    openFlowForEditing w n ex2 = ⟨w, [notInitializedMsg], none⟩ := by
  refine ⟨?_, ?_, ?_, ?_, ?_⟩ <;>
    simp [createFlow, listFlows, runFlow, deleteFlow, openFlowForEditing, h]

/-- Witness for C2 amended at a concrete uninitialized state. -/
theorem c2_witness :
    uninitWorld.config.initialized = false ∧
    (createFlow uninitWorld ⟨"g", ["home", "proj"], "echo hi"⟩ .ok .ok =
        (uninitWorld, [notInitializedMsg]) ∧
      listFlows uninitWorld = (uninitWorld, [notInitializedMsg]) ∧
      runFlow uninitWorld "f" (.success "" "") =
        ⟨uninitWorld, [notInitializedMsg], none⟩ ∧
      deleteFlow uninitWorld "f" .ok .ok = (uninitWorld, [notInitializedMsg]) ∧
      openFlowForEditing uninitWorld "f" (.success "" "") =
        ⟨uninitWorld, [notInitializedMsg], none⟩) :=
  ⟨by decide,
    c2_gate_amended uninitWorld ⟨"g", ["home", "proj"], "echo hi"⟩ .ok .ok .ok
      "f" "f" (.success "" "") (.success "" "") (by decide)⟩

/-- C3 counterexample: a successful delete removes the script file and
the registry record, but the containing per-flow directory is still
present afterwards, because the source removes flow.script (the file)
rather than its directory. -/
theorem c3_counterexample :
    ["home", "flow", "commands", "f"] ∈ (deleteFlow sampleWorld "f" .ok .ok).1.fs ∧
    ["home", "flow", "commands", "f", "script.sh"] ∉
      (deleteFlow sampleWorld "f" .ok .ok).1.fs ∧
    (deleteFlow sampleWorld "f" .ok .ok).1.registry = .parsed [] ∧
    "Flow deleted successfully!" ∈ (deleteFlow sampleWorld "f" .ok .ok).2 := by
  decide

/-- C3 amended: delete removes the script file first (the containing
per-flow directory is left in place: every existing path not at or
below the script path survives); only on success of that removal is the
record spliced out and the registry persisted; if the removal fails the
whole state is left unchanged. -/
theorem c3_delete_amended (w : World) (n : String) (i : Nat) (f : Flow)
    (m : String) (sv : FsOutcome)
    (hinit : w.config.initialized = true)
    (hfind : findIndexAndFlow (fun fl => fl.name == n) (loadFlows w.registry).1 =
      some (i, f)) :
    deleteFlow w n (.err m) sv =
      (w, (loadFlows w.registry).2 ++ ["Error deleting flow: " ++ m]) ∧
    (deleteFlow w n .ok .ok).1.registry =
      .parsed ((loadFlows w.registry).1.eraseIdx i) ∧
    f.script ∉ (deleteFlow w n .ok .ok).1.fs ∧
    ∀ d ∈ w.fs, pathUnder f.script d = false →
      d ∈ (deleteFlow w n .ok .ok).1.fs := by
  refine ⟨?_, ?_, ?_, ?_⟩
  · simp [deleteFlow, hinit, hfind]
  · simp [deleteFlow, hinit, hfind, saveFlows]
  · simp only [deleteFlow, hinit]
    simp only [hfind, Bool.not_true, if_false, saveFlows]
    exact not_mem_rmTree_self f.script w.fs
  · intro d hd hdu
    simp only [deleteFlow, hinit]
    simp only [hfind, Bool.not_true, if_false, saveFlows]
    exact mem_rmTree_of_not_under f.script d w.fs hd hdu

/-- Witness for C3 amended at a concrete state. -/
theorem c3_witness :
    sampleWorld.config.initialized = true ∧
    findIndexAndFlow (fun fl => fl.name == "f") (loadFlows sampleWorld.registry).1 =
      some (0, sampleFlow) ∧
    (deleteFlow sampleWorld "f" (.err "EACCES") .ok =
        (sampleWorld, (loadFlows sampleWorld.registry).2 ++
          ["Error deleting flow: " ++ "EACCES"]) ∧
      (deleteFlow sampleWorld "f" .ok .ok).1.registry =
        .parsed ((loadFlows sampleWorld.registry).1.eraseIdx 0) ∧
      sampleFlow.script ∉ (deleteFlow sampleWorld "f" .ok .ok).1.fs ∧
      ∀ d ∈ sampleWorld.fs, pathUnder sampleFlow.script d = false →
        d ∈ (deleteFlow sampleWorld "f" .ok .ok).1.fs) :=
  ⟨by decide, by decide,
    c3_delete_amended sampleWorld "f" 0 sampleFlow "EACCES" .ok (by decide)
      (by decide)⟩

/-- C4 counterexample: with zero existing flows, the reinit verb does
nothing at all — at a concrete uninitialized state with a missing
registry file it returns the state unchanged with no output (for any
choice), so it does not collect a new root or set initialized to
true. -/
theorem c4_counterexample :
    emptyRegWorld.config.initialized = false ∧
    reinitCmd emptyRegWorld .cancel ⟨"zsh", ["home", "new"]⟩ =
      (emptyRegWorld, []) ∧
    reinitCmd emptyRegWorld (.moveTo ["home", "new"]) ⟨"zsh", ["home", "new"]⟩ =
      (emptyRegWorld, []) := by
  decide

/-- C4 amended: when the loaded registry holds zero flows, the reinit
verb performs no operation: it returns the state unchanged (printing
only whatever the registry load printed), and in particular neither
collects a new root and dialect nor sets initialized to true. -/
theorem c4_noop_amended (w : World) (c : ReinitChoice) (a : InitAnswers)
    (h : (loadFlows w.registry).1 = []) :
    reinitCmd w c a = (w, (loadFlows w.registry).2) := by
  simp [reinitCmd, h]

/-- Witness for C4 amended at a concrete state with an absent registry
file. -/
theorem c4_witness :
    (loadFlows emptyRegWorld.registry).1 = [] ∧
    reinitCmd emptyRegWorld (.moveTo ["home", "new"]) ⟨"bash", ["home", "new"]⟩ =
      (emptyRegWorld, (loadFlows emptyRegWorld.registry).2) :=
  ⟨by decide,
    c4_noop_amended emptyRegWorld (.moveTo ["home", "new"])
      ⟨"bash", ["home", "new"]⟩ (by decide)⟩

/-- C5 counterexample: malformed registry content does not surface as an
error: loadFlows catches the parse error, prints a console line, and
hands its caller the empty flow list — the same flow list a missing
file produces. -/
theorem c5_counterexample :
    loadFlows (.malformed "Unexpected token u in JSON") =
      ([], ["Error loading flows: Unexpected token u in JSON"]) ∧
    (loadFlows (.malformed "Unexpected token u in JSON")).1 =
      (loadFlows .fileMissing).1 :=
  ⟨rfl, rfl⟩

/-- C5 amended: loadFlows returns the empty sequence (with no output)
when the registry file does not exist, and on malformed content it
catches the parse error, prints an error line and again returns the
empty sequence to its caller; no error value reaches the caller. -/
theorem c5_load_amended (m : String) :
    loadFlows .fileMissing = ([], []) ∧
    loadFlows (.malformed m) = ([], ["Error loading flows: " ++ m]) :=
  ⟨rfl, rfl⟩

/-- C6: the flow-name validate callback rejects the concrete valid name
deploy, and indeed every name, with the generic rejection message: the
callback reads the flow list from loadFlows() without await, the find
call on the resulting pending Promise throws, and the catch converts
the thrown error into the rejection.  Create therefore never accepts a
name, and the duplicate-name rejection is unreachable. -/
theorem c6_validate_rejects_all :
    validateFlowName "deploy" = .invalid "Please enter a valid flow name" ∧
    ∀ value : String,
      validateFlowName value = .invalid "Please enter a valid flow name" := by
  refine ⟨by decide, fun value => ?_⟩
  by_cases h : isValidFlowName value = true <;>
    simp [validateFlowName, promiseFind, h]

/-- C7: the script-generation switch follows the policy table on the
input echo a,echo b: bash and zsh give their shebangs, extension .sh
and a blank line between the two commands; powershell gives the comment
header, .ps1 and a single newline; cmd gives @echo off, .bat and a
single newline; each produced body holds echo a before echo b. -/
theorem c7_generate_table :
    generateScript "bash" "echo a,echo b" =
      some ("#!/bin/bash\n\necho a\n\necho b", ".sh") ∧
    generateScript "zsh" "echo a,echo b" =
      some ("#!/bin/zsh\n\necho a\n\necho b", ".sh") ∧
    generateScript "powershell" "echo a,echo b" =
      some ("# PowerShell script content here\n\necho a\necho b", ".ps1") ∧
    generateScript "cmd" "echo a,echo b" =
      some ("@echo off\n\necho a\necho b", ".bat") := by
  refine ⟨?_, ?_, ?_, ?_⟩ <;> decide

/-- C8 counterexample: with a failing registry write, createFlow prints
the flow-created success line anyway, while the persisted registry is
unchanged — the write error was swallowed inside saveFlows. -/
theorem c8_counterexample :
    (createFlow sampleWorld ⟨"g", ["home", "proj"], "echo hi"⟩ .ok
        (.err "disk full")).1.registry = sampleWorld.registry ∧
    "Flow created successfully! File location: home/flow/commands/g/script.sh" ∈
      (createFlow sampleWorld ⟨"g", ["home", "proj"], "echo hi"⟩ .ok
        (.err "disk full")).2 ∧
    "Error saving flows: disk full" ∈
      (createFlow sampleWorld ⟨"g", ["home", "proj"], "echo hi"⟩ .ok
        (.err "disk full")).2 := by
  decide

/-- C8 amended: on an I/O error while writing the registry file,
saveFlows prints an error line and returns normally with the registry
file unchanged — no error is surfaced to the caller — and consequently
createFlow still prints its success line after a failed registry
write. -/
theorem c8_save_amended (w : World) (fl : List Flow) (a : CreateAnswers)
    (m content ext : String)
    (hinit : w.config.initialized = true)
    (hgen : generateScript w.config.terminalProfile a.commands =
      some (content, ext)) :
    saveFlows w fl (.err m) = (w, ["Error saving flows: " ++ m]) ∧
    (createFlow w a .ok (.err m)).1.registry = w.registry ∧
    "Flow created successfully! File location: " ++
        renderPath (w.config.flowCommandDir ++ [a.flowName] ++ ["script" ++ ext]) ∈
      (createFlow w a .ok (.err m)).2 := by
  refine ⟨rfl, ?_, ?_⟩ <;> simp [createFlow, hinit, hgen, saveFlows]

/-- Witness for C8 amended at a concrete state. -/
theorem c8_witness :
    sampleWorld.config.initialized = true ∧
    generateScript sampleWorld.config.terminalProfile "echo hi" =
      some ("#!/bin/bash\n\necho hi", ".sh") ∧
    (saveFlows sampleWorld [] (.err "disk full") =
        (sampleWorld, ["Error saving flows: " ++ "disk full"]) ∧
      (createFlow sampleWorld ⟨"g", ["home", "proj"], "echo hi"⟩ .ok
          (.err "disk full")).1.registry = sampleWorld.registry ∧
      "Flow created successfully! File location: " ++
          renderPath (sampleWorld.config.flowCommandDir ++ ["g"] ++
            ["script" ++ ".sh"]) ∈
        (createFlow sampleWorld ⟨"g", ["home", "proj"], "echo hi"⟩ .ok
          (.err "disk full")).2) :=
  ⟨by decide, by decide,
    c8_save_amended sampleWorld [] ⟨"g", ["home", "proj"], "echo hi"⟩
      "disk full" "#!/bin/bash\n\necho hi" ".sh" (by decide) (by decide)⟩

/-- C9 counterexample: after the Move choice at a concrete state, the
registry content is unchanged (the record is still there, byte for
byte), the settings point at the new root, but the record script path —
an absolute path under the old root — no longer exists on disk. -/
theorem c9_counterexample :
    (reinitCmd sampleWorld (.moveTo ["home", "new"])
        ⟨"bash", ["home", "new"]⟩).1.registry = sampleWorld.registry ∧
    (reinitCmd sampleWorld (.moveTo ["home", "new"])
        ⟨"bash", ["home", "new"]⟩).1.config.flowDir = ["home", "new"] ∧
    sampleFlow.script ∉
      (reinitCmd sampleWorld (.moveTo ["home", "new"])
        ⟨"bash", ["home", "new"]⟩).1.fs := by
  decide

/-- C9 amended: the Move choice relocates the entire storage root as
one recursive move and updates the settings, keeping every flow record
unchanged; but because the stored script paths are absolute, any script
path under the old root (and not under the new one) refers to no
existing file after the move. -/
theorem c9_move_amended (w : World) (dst : FsPath) (a : InitAnswers) (f : Flow)
    (hne : (loadFlows w.registry).1 ≠ [])
    (hprof : isKnownProfile w.config.terminalProfile = true)
    (hunder : pathUnder w.config.flowDir f.script = true)
    (hdst : pathUnder dst f.script = false) :
    (reinitCmd w (.moveTo dst) a).1.registry = w.registry ∧
    (reinitCmd w (.moveTo dst) a).1.config.flowDir = dst ∧
    (reinitCmd w (.moveTo dst) a).1.config.initialized = true ∧
    f.script ∉ (reinitCmd w (.moveTo dst) a).1.fs := by
  have hlen : (loadFlows w.registry).1.length > 0 := List.length_pos.2 hne
  refine ⟨?_, ?_, ?_, ?_⟩
  · simp [reinitCmd, hlen, hprof]
  · simp [reinitCmd, hlen, hprof]
  · simp [reinitCmd, hlen, hprof]
  · simp only [reinitCmd, hlen, if_true, hprof, if_pos]
    exact not_mem_mvTree w.fs hunder hdst

/-- Witness for C9 amended at a concrete state. -/
theorem c9_witness :
    (loadFlows sampleWorld.registry).1 ≠ [] ∧
    isKnownProfile sampleWorld.config.terminalProfile = true ∧
    pathUnder sampleWorld.config.flowDir sampleFlow.script = true ∧
    pathUnder ["home", "new"] sampleFlow.script = false ∧
    ((reinitCmd sampleWorld (.moveTo ["home", "new"])
        ⟨"bash", ["home", "new"]⟩).1.registry = sampleWorld.registry ∧
      (reinitCmd sampleWorld (.moveTo ["home", "new"])
        ⟨"bash", ["home", "new"]⟩).1.config.flowDir = ["home", "new"] ∧
      (reinitCmd sampleWorld (.moveTo ["home", "new"])
        ⟨"bash", ["home", "new"]⟩).1.config.initialized = true ∧
      sampleFlow.script ∉
        (reinitCmd sampleWorld (.moveTo ["home", "new"])
          ⟨"bash", ["home", "new"]⟩).1.fs) :=
  ⟨by decide, by decide, by decide, by decide,
    c9_move_amended sampleWorld ["home", "new"] ⟨"bash", ["home", "new"]⟩
      sampleFlow (by decide) (by decide) (by decide) (by decide)⟩

/-- C10: for every settings state (so for every configured dialect,
substituted below as the terminal profile d) and every resolving flow
name, runFlow hands the shell the fixed command sh followed by the
script path and openFlowForEditing the fixed command code followed by
the script path; the interpreter never depends on the dialect, so
scripts generated for the powershell or cmd dialects are still passed
to sh and code. -/
theorem c10_fixed_interpreters (w : World) (d n : String) (ex ex2 : ExecOutcome)
    (f : Flow)
    (hinit : w.config.initialized = true)
    (hfind : (loadFlows w.registry).1.find? (fun fl => fl.name == n) = some f) :
    (runFlow { w with config := { w.config with terminalProfile := d } } n
        ex).executed = some ("sh " ++ renderPath f.script) ∧
    (openFlowForEditing { w with config := { w.config with terminalProfile := d } }
        n ex2).executed = some ("code " ++ renderPath f.script) := by
  constructor <;> simp [runFlow, openFlowForEditing, hinit, hfind]

/-- Witness for C10 at a concrete state with the powershell dialect
substituted in. -/
theorem c10_witness :
    sampleWorld.config.initialized = true ∧
    (loadFlows sampleWorld.registry).1.find? (fun fl => fl.name == "f") =
      some sampleFlow ∧
    ((runFlow { sampleWorld with
          config := { sampleWorld.config with terminalProfile := "powershell" } }
        "f" (.success "" "")).executed =
      some ("sh " ++ renderPath sampleFlow.script) ∧
    (openFlowForEditing { sampleWorld with
          config := { sampleWorld.config with terminalProfile := "powershell" } }
        "f" (.success "" "")).executed =
      some ("code " ++ renderPath sampleFlow.script)) :=
  ⟨by decide, by decide,
    c10_fixed_interpreters sampleWorld "powershell" "f" (.success "" "")
      (.success "" "") sampleFlow (by decide) (by decide)⟩

end Scriptflow
